import Mathlib

/-!
Verification of `src/lib/inference.ts` (stagehand inference core).

The file shallowly embeds the five exported operations of the inference
module — `verifyActCompletion`, `act`, `extract`, `observe`, `ask` — as
pure Lean functions.  The external collaborators are modelled as follows:

* the structured completion client (`llmProvider.getClient(modelName)` /
  `createChatCompletion`) is an oracle, a function from the call index and
  the request record to `Except JsError` of a response; calls with a
  `response_model` return a client-parsed JS value, calls without one
  return an OpenAI-style chat response with `choices`;
* the prompt builders imported from `./prompt` are pure opaque functions,
  so each builder is a free constructor of `ChatMessage` carrying exactly
  the arguments the source passes to it;
* the JS builtin `JSON.parse` is an explicit function parameter
  `jsonParse : String → Except JsError JSVal`;
* the `logger` callback and the issued completion requests are recorded
  in an event trace returned alongside each operation's result.

JS runtime values (which may be `undefined`, `null`, primitives, arrays
or objects) are modelled by the inductive `JSVal`.
-/

set_option autoImplicit false

namespace Stagehand

/-- A JavaScript runtime value: `undefined`, `null`, booleans, numbers
(modelled as integers; the source only deals in integral numbers),
strings, arrays and plain objects (association lists of fields). -/
inductive JSVal where
  | undefined
  | null
  | bool (b : Bool)
  | num (n : Int)
  | str (s : String)
  | arr (elems : List JSVal)
  | obj (fields : List (String × JSVal))

/-- JS falsiness: `undefined`, `null`, `false`, `0` and `""` are falsy;
every other value (including all arrays and objects) is truthy. -/
def JSVal.isFalsy : JSVal → Bool
  | .undefined => true
  | .null => true
  | .bool b => !b
  | .num n => n == 0
  | .str s => s == ""
  | .arr _ => false
  | .obj _ => false

/-- The JS `typeof` operator (note `typeof null = "object"`, and arrays
and plain objects are both `"object"`). -/
def JSVal.typeof : JSVal → String
  | .undefined => "undefined"
  | .null => "object"
  | .bool _ => "boolean"
  | .num _ => "number"
  | .str _ => "string"
  | .arr _ => "object"
  | .obj _ => "object"

/-- Does the value equal the JS value `undefined` (the `=== undefined`
test of the source)? -/
def JSVal.isUndefined : JSVal → Bool
  | .undefined => true
  | _ => false

/-- Field lookup in an object's field list; a missing field reads as
`undefined`, exactly as JS property access does. -/
def lookupField : List (String × JSVal) → String → JSVal
  | [], _ => .undefined
  | (k', v) :: rest, k => if k' == k then v else lookupField rest k

/-- JS property read `v.k`.  On non-objects the model returns
`undefined`; the source only reads properties after establishing the
receiver is object-shaped, so the (throwing) primitive cases are never
reached. -/
def JSVal.get : JSVal → String → JSVal
  | .obj fields, k => lookupField fields k
  | _, _ => .undefined

/-- Overwrite-or-append in an object's field list: JS property
assignment keeps an existing key at its original position and appends a
new key at the end of the insertion order. -/
def setAssocField : List (String × JSVal) → String → JSVal → List (String × JSVal)
  | [], k, v => [(k, v)]
  | (k', v') :: rest, k, v =>
      if k' == k then (k, v) :: rest else (k', v') :: setAssocField rest k v

/-- A JavaScript error (rejected promise / thrown exception). -/
inductive JsError where
  | typeError (message : String)
  | parseError (message : String)
  | jsError (message : String)
deriving DecidableEq

/-- JS property assignment `target.key = v` (used by the source as
`refinedResponse.metadata = metadataResponse`).  Assigning onto a plain
object updates the field list; assigning onto `null`/`undefined` throws
a `TypeError`, as does (in strict module code) assignment onto any other
primitive.  Assignment onto an array value is not representable in this
model and is also mapped to an error; it is unreachable here because the
structured client only hands `extract` schema-validated plain objects. -/
def JSVal.setProp (target : JSVal) (key : String) (v : JSVal) : Except JsError JSVal :=
  match target with
  | .obj fields => .ok (.obj (setAssocField fields key v))
  | _ => .error (.typeError "Cannot create property on a non-object")

mutual

/-- Models `JSON.stringify` (string escaping elided; `undefined` at the
top level stringifies to the token the subsequent string concatenation
in the source would display). -/
def JSVal.stringify : JSVal → String
  | .undefined => "undefined"
  | .null => "null"
  | .bool true => "true"
  | .bool false => "false"
  | .num n => toString n
  | .str s => "\x22" ++ s ++ "\x22"
  | .arr xs => "[" ++ String.intercalate "," (stringifyList xs) ++ "]"
  | .obj fs => "\x7b" ++ String.intercalate "," (stringifyFields fs) ++ "\x7d"
termination_by v => sizeOf v

/-- Rendered array items; `JSON.stringify` prints `undefined` entries
as `null`. -/
def stringifyList : List JSVal → List String
  | [] => []
  | .undefined :: rest => "null" :: stringifyList rest
  | x :: rest => JSVal.stringify x :: stringifyList rest
termination_by xs => sizeOf xs

/-- Rendered object fields; `JSON.stringify` omits fields holding
`undefined`. -/
def stringifyFields : List (String × JSVal) → List String
  | [] => []
  | (_, .undefined) :: rest => stringifyFields rest
  | (k, v) :: rest =>
      ("\x22" ++ k ++ "\x22:" ++ JSVal.stringify v) :: stringifyFields rest
termination_by fs => sizeOf fs

end

/-- A binary screenshot buffer (`Buffer` in the source); the byte
contents are opaque to the inference module. -/
abbrev Buffer := List Nat

/-- The type `AvailableModel` is a union of model-name string literals. -/
abbrev AvailableModel := String

/-- The string constant `AnnotatedScreenshotText` imported from
`./llm/LLMClient`; its contents live outside this module and are
opaque here. -/
def AnnotatedScreenshotText : String := "AnnotatedScreenshotText"

/-- A chat message produced by one of the pure prompt builders imported
from `./prompt`.  The builders are external collaborators with no
observable structure, so each is a free constructor carrying exactly the
arguments the source passes. -/
inductive ChatMessage where
  | buildVerifyActCompletionSystemPrompt
  | buildVerifyActCompletionUserPrompt (goal : String) (steps : String)
      (domElements : Option String)
  | buildActSystemPrompt
  | buildActUserPrompt (action : String) (steps : Option String) (domElements : String)
  | buildExtractSystemPrompt
  | buildExtractUserPrompt (instruction : String) (domElements : String)
  | buildRefineSystemPrompt
  | buildRefineUserPrompt (instruction : String) (previouslyExtractedContent : JSVal)
      (extractionResponse : JSVal)
  | buildMetadataSystemPrompt
  | buildMetadataPrompt (instruction : String) (refinedResponse : JSVal)
      (chunksSeen : Nat) (chunksTotal : Nat)
  | buildObserveSystemPrompt
  | buildObserveUserMessage (instruction : String) (domElements : String)
  | buildAskSystemPrompt
  | buildAskUserPrompt (question : String)

/-- An image attachment of a completion request. -/
structure ImageAttachment where
  buffer : Buffer
  description : String

/-- The tool sets this module can offer; the only one used is
`actTools`, imported from `./prompt` and opaque here. -/
inductive ToolSet where
  | actTools
deriving DecidableEq

/-- A `response_model` descriptor: a name and a schema.  A zod schema is
modelled by its conformance predicate. -/
structure ResponseModel where
  name : String
  schema : JSVal → Bool

/-- One request to `createChatCompletion`. -/
structure CompletionRequest where
  model : AvailableModel
  messages : List ChatMessage
  temperature : Rat
  top_p : Rat
  frequency_penalty : Rat
  presence_penalty : Rat
  image : Option ImageAttachment := none
  tool_choice : Option String := none
  tools : Option ToolSet := none
  response_model : Option ResponseModel := none

/-- The `function` part of a tool invocation returned by the model:
a name and a JSON-encoded argument payload. -/
structure ToolFunction where
  name : String
  arguments : String

/-- One tool invocation of a chat response. -/
structure ToolCall where
  function : ToolFunction

/-- The `message` of one chat-response choice. -/
structure ResponseMessage where
  content : JSVal
  tool_calls : Option (List ToolCall)

/-- One choice of a chat response. -/
structure Choice where
  message : ResponseMessage

/-- An OpenAI-style chat response (returned when no `response_model` is
supplied). -/
structure ChatResponse where
  choices : List Choice

/-- The structured completion client, modelled as an oracle indexed by
the sequence number of the call within one operation.  The real
`createChatCompletion` dispatches on the presence of `response_model`:
with one, the client parses and validates the model output and resolves
with the resulting JS value (`createStructured`); without one it
resolves with the raw chat response (`createChat`).  Either kind of call
may reject, yielding `.error`. -/
structure LLMClient where
  createStructured : Nat → CompletionRequest → Except JsError JSVal
  createChat : Nat → CompletionRequest → Except JsError ChatResponse

/-- An observable event of one operation: a completion request issued to
the client, or a `logger` invocation. -/
inductive Event where
  | request (req : CompletionRequest)
  | log (category : Option String) (message : String)

/-- The completion requests recorded in a trace, in order. -/
def requestsOf (evts : List Event) : List CompletionRequest :=
  evts.filterMap fun e =>
    match e with
    | .request r => some r
    | .log _ _ => none

/-- The `logger` invocations recorded in a trace, in order. -/
def logsOf (evts : List Event) : List (Option String × String) :=
  evts.filterMap fun e =>
    match e with
    | .request _ => none
    | .log c m => some (c, m)

/-! ## verifyActCompletion (source lines 22–83) -/

/-- The zod schema `z.object({completed: z.boolean()})` passed as the
`Verification` response model (the `describe` annotation has no
runtime shape content). -/
def verificationSchema : JSVal → Bool := fun j =>
  match j with
  | .obj [("completed", .bool _)] => true
  | _ => false

/-- The completion request `verifyActCompletion` issues. -/
def verifyRequest (goal : String) (steps : String) (modelName : AvailableModel)
    (screenshot : Option Buffer) (domElements : Option String) : CompletionRequest :=
  { model := modelName
    messages := [ChatMessage.buildVerifyActCompletionSystemPrompt,
                 ChatMessage.buildVerifyActCompletionUserPrompt goal steps domElements]
    temperature := 1/10
    top_p := 1
    frequency_penalty := 0
    presence_penalty := 0
    image := screenshot.map fun b =>
      { buffer := b
        description := "This is a screenshot of the whole visible page." }
    response_model := some { name := "Verification", schema := verificationSchema } }

/-- The function `verifyActCompletion`: one structured completion call, then a
defensive validation of the response.  The declared TS return type is
`boolean`; the runtime value returned on the happy path is whatever the
`completed` property holds, so the model returns a `JSVal`. -/
def verifyActCompletion (client : LLMClient) (goal : String) (steps : String)
    (modelName : AvailableModel) (screenshot : Option Buffer)
    (domElements : Option String) : Except JsError JSVal × List Event :=
  let req := verifyRequest goal steps modelName screenshot domElements
  match client.createStructured 0 req with
  | .error e => (.error e, [.request req])
  | .ok response =>
    if response.isFalsy || response.typeof != "object" then
      (.ok (.bool false),
       [.request req,
        .log (some "VerifyAct")
          ("Unexpected response format: " ++ response.stringify)])
    else if (response.get "completed").isUndefined then
      (.ok (.bool false),
       [.request req,
        .log (some "VerifyAct") "Missing \x27completed\x27 field in response"])
    else
      (.ok (response.get "completed"), [.request req])

/-! ## act (source lines 85–156) -/

/-- The completion request `act` issues: the act tool set with automatic
tool choice, and the screenshot (when present) attached as an annotated
image. -/
def actRequest (action : String) (steps : Option String) (domElements : String)
    (modelName : AvailableModel) (screenshot : Option Buffer) : CompletionRequest :=
  { model := modelName
    messages := [ChatMessage.buildActSystemPrompt,
                 ChatMessage.buildActUserPrompt action steps domElements]
    temperature := 1/10
    top_p := 1
    frequency_penalty := 0
    presence_penalty := 0
    tool_choice := some "auto"
    tools := some ToolSet.actTools
    image := screenshot.map fun b =>
      { buffer := b, description := AnnotatedScreenshotText } }

/-- The body of `act`.  `retries` is the named parameter (defaulted to 0
at the wrapper); `callNo` is the model's bookkeeping index selecting the
oracle's response for each successive client call.  On a response with
at least one tool invocation, the skip tool yields `null` and any other
tool's arguments go through `JSON.parse`, whose failure is not caught.
On a response without tool invocations, the source re-invokes `act`
forwarding `action`, `domElements`, `steps`, the provider and model and
`retries + 1` — but not `screenshot` — until `retries ≥ 2`, where it
logs and returns `null`. -/
def actGo (client : LLMClient) (jsonParse : String → Except JsError JSVal)
    (action : String) (domElements : String) (steps : Option String)
    (modelName : AvailableModel) (screenshot : Option Buffer)
    (retries : Nat) (callNo : Nat) : Except JsError (Option JSVal) × List Event :=
  let req := actRequest action steps domElements modelName screenshot
  match client.createChat callNo req with
  | .error e => (.error e, [.request req])
  | .ok response =>
    match response.choices with
    | [] =>
        -- `response.choices[0]` is `undefined`; reading `.message` throws.
        (.error (.typeError "Cannot read properties of undefined"), [.request req])
    | choice :: _ =>
      match choice.message.tool_calls with
      | some (tc :: _) =>
          if tc.function.name == "skipSection" then
            (.ok none, [.request req])
          else
            match jsonParse tc.function.arguments with
            | .ok v => (.ok (some v), [.request req])
            | .error e => (.error e, [.request req])
      | _ =>
          if h : retries ≥ 2 then
            (.ok none,
             [.request req, .log (some "Act") "No tool calls found in response"])
          else
            let rest := actGo client jsonParse action domElements steps modelName
              none (retries + 1) (callNo + 1)
            (rest.1, .request req :: rest.2)
termination_by 2 - retries
decreasing_by omega

/-- The function `act`: resolves an instruction into a parsed action object, or
`null`.  `retries` defaults to 0 in the source signature. -/
def act (client : LLMClient) (jsonParse : String → Except JsError JSVal)
    (action : String) (domElements : String) (steps : Option String)
    (modelName : AvailableModel) (screenshot : Option Buffer)
    (retries : Nat := 0) : Except JsError (Option JSVal) × List Event :=
  actGo client jsonParse action domElements steps modelName screenshot retries 0

/-! ## extract (source lines 158–254) -/

/-- The zod schema `metadataSchema` built inside `extract`:
`z.object({progress: z.string(), completed: z.boolean()})`. -/
def metadataSchema : JSVal → Bool := fun j =>
  match j with
  | .obj [("progress", .str _), ("completed", .bool _)] => true
  | _ => false

/-- Stage-1 request of the extraction pipeline (`Extraction`). -/
def extractRequest (instruction : String) (domElements : String)
    (schema : JSVal → Bool) (modelName : AvailableModel) : CompletionRequest :=
  { model := modelName
    messages := [ChatMessage.buildExtractSystemPrompt,
                 ChatMessage.buildExtractUserPrompt instruction domElements]
    response_model := some { name := "Extraction", schema := schema }
    temperature := 1/10
    top_p := 1
    frequency_penalty := 0
    presence_penalty := 0 }

/-- Stage-2 request (`RefinedExtraction`); its user prompt carries the
previously extracted content and stage 1's raw output. -/
def refineRequest (instruction : String) (previouslyExtractedContent : JSVal)
    (extractionResponse : JSVal) (schema : JSVal → Bool)
    (modelName : AvailableModel) : CompletionRequest :=
  { model := modelName
    messages := [ChatMessage.buildRefineSystemPrompt,
                 ChatMessage.buildRefineUserPrompt instruction
                   previouslyExtractedContent extractionResponse]
    response_model := some { name := "RefinedExtraction", schema := schema }
    temperature := 1/10
    top_p := 1
    frequency_penalty := 0
    presence_penalty := 0 }

/-- Stage-3 request (`Metadata`); its user prompt carries stage 2's
output and the chunk counters. -/
def metadataRequest (instruction : String) (refinedResponse : JSVal)
    (chunksSeen : Nat) (chunksTotal : Nat)
    (modelName : AvailableModel) : CompletionRequest :=
  { model := modelName
    messages := [ChatMessage.buildMetadataSystemPrompt,
                 ChatMessage.buildMetadataPrompt instruction refinedResponse
                   chunksSeen chunksTotal]
    response_model := some { name := "Metadata", schema := metadataSchema }
    temperature := 1/10
    top_p := 1
    frequency_penalty := 0
    presence_penalty := 0 }

/-- The function `extract`: three sequential structured completion calls
(extract → refine → metadata), then `refinedResponse.metadata =
metadataResponse` and return of the mutated `refinedResponse`.  The
`progress` parameter is accepted but unused by the source body. -/
def extract (client : LLMClient) (instruction : String) (progress : String)
    (previouslyExtractedContent : JSVal) (domElements : String)
    (schema : JSVal → Bool) (modelName : AvailableModel)
    (chunksSeen : Nat) (chunksTotal : Nat) : Except JsError JSVal × List Event :=
  let req1 := extractRequest instruction domElements schema modelName
  match client.createStructured 0 req1 with
  | .error e => (.error e, [.request req1])
  | .ok extractionResponse =>
    let req2 := refineRequest instruction previouslyExtractedContent
      extractionResponse schema modelName
    match client.createStructured 1 req2 with
    | .error e => (.error e, [.request req1, .request req2])
    | .ok refinedResponse =>
      let req3 := metadataRequest instruction refinedResponse chunksSeen
        chunksTotal modelName
      match client.createStructured 2 req3 with
      | .error e => (.error e, [.request req1, .request req2, .request req3])
      | .ok metadataResponse =>
        match refinedResponse.setProp "metadata" metadataResponse with
        | .ok result =>
            (.ok result, [.request req1, .request req2, .request req3])
        | .error e =>
            (.error e, [.request req1, .request req2, .request req3])

/-! ## observe (source lines 256–311) -/

/-- One element of the `observeSchema` array:
`z.object({elementId: z.number(), description: z.string()})`. -/
def observeElementSchema : JSVal → Bool := fun j =>
  match j with
  | .obj [("elementId", .num _), ("description", .str _)] => true
  | _ => false

/-- The zod schema `observeSchema` built inside `observe`:
`z.object({elements: z.array(...)})`. -/
def observeSchema : JSVal → Bool := fun j =>
  match j with
  | .obj [("elements", .arr elems)] => elems.all observeElementSchema
  | _ => false

/-- The completion request `observe` issues. -/
def observeRequest (instruction : String) (domElements : String)
    (modelName : AvailableModel) (image : Option Buffer) : CompletionRequest :=
  { model := modelName
    messages := [ChatMessage.buildObserveSystemPrompt,
                 ChatMessage.buildObserveUserMessage instruction domElements]
    image := image.map fun b =>
      { buffer := b, description := AnnotatedScreenshotText }
    response_model := some { name := "Observation", schema := observeSchema }
    temperature := 1/10
    top_p := 1
    frequency_penalty := 0
    presence_penalty := 0 }

/-- The function `observe`: one structured completion call; a falsy response (in
particular `null` or `undefined`) throws
`new Error("no response when finding a selector")`, any other response
is returned unchanged. -/
def observe (client : LLMClient) (instruction : String) (domElements : String)
    (modelName : AvailableModel) (image : Option Buffer) :
    Except JsError JSVal × List Event :=
  let req := observeRequest instruction domElements modelName image
  match client.createStructured 0 req with
  | .error e => (.error e, [.request req])
  | .ok observationResponse =>
    if observationResponse.isFalsy then
      (.error (.jsError "no response when finding a selector"), [.request req])
    else
      (.ok observationResponse, [.request req])

/-! ## ask (source lines 313–337) -/

/-- The completion request `ask` issues: no tools, no image, no
response model. -/
def askRequest (question : String) (modelName : AvailableModel) : CompletionRequest :=
  { model := modelName
    messages := [ChatMessage.buildAskSystemPrompt,
                 ChatMessage.buildAskUserPrompt question]
    temperature := 1/10
    top_p := 1
    frequency_penalty := 0
    presence_penalty := 0 }

/-- The function `ask`: one unconstrained chat completion; returns
`response.choices[0].message.content` unchanged. -/
def ask (client : LLMClient) (question : String) (modelName : AvailableModel) :
    Except JsError JSVal × List Event :=
  let req := askRequest question modelName
  match client.createChat 0 req with
  | .error e => (.error e, [.request req])
  | .ok response =>
    match response.choices with
    | [] =>
        (.error (.typeError "Cannot read properties of undefined"), [.request req])
    | choice :: _ => (.ok choice.message.content, [.request req])

/-! ## Helper lemmas -/

/-- Looking up a key right after setting it returns the stored value. -/
theorem lookupField_setAssocField (fs : List (String × JSVal)) (k : String) (v : JSVal) :
    lookupField (setAssocField fs k v) k = v := by
  induction fs with
  | nil => simp [setAssocField, lookupField]
  | cons hd tl ih =>
      obtain ⟨k', v'⟩ := hd
      by_cases h : k' == k
      · simp [setAssocField, lookupField, h]
      · simp only [setAssocField, h, if_false, Bool.false_eq_true, lookupField, ite_false]
        exact ih

/-- A value accepted by `metadataSchema` is exactly a two-field object
holding a string `progress` and a boolean `completed`. -/
theorem metadataSchema_shape (j : JSVal) (h : metadataSchema j = true) :
    ∃ p c, j = JSVal.obj [("progress", JSVal.str p), ("completed", JSVal.bool c)] := by
  unfold metadataSchema at h
  split at h
  · next p c => exact ⟨p, c, rfl⟩
  · exact absurd h (by simp)

/-- A chat response with at least one choice but no tool invocations
(`tool_calls` absent or an empty list). -/
def noToolCallResponse (r : ChatResponse) : Prop :=
  ∃ c rest, r.choices = c :: rest ∧
    (c.message.tool_calls = none ∨ c.message.tool_calls = some [])

/-- Under an oracle that always answers without tool invocations,
`actGo` at the retry ceiling issues one request, logs, and yields
`null`. -/
theorem actGo_noTool_two (client : LLMClient)
    (jsonParse : String → Except JsError JSVal) (resp : Nat → ChatResponse)
    (hclient : ∀ n req, client.createChat n req = .ok (resp n))
    (hno : ∀ n, noToolCallResponse (resp n))
    (action domElements : String) (steps : Option String)
    (modelName : AvailableModel) (screenshot : Option Buffer) (callNo : Nat) :
    actGo client jsonParse action domElements steps modelName screenshot 2 callNo =
      (.ok none,
       [.request (actRequest action steps domElements modelName screenshot),
        .log (some "Act") "No tool calls found in response"]) := by
  obtain ⟨c, rest, hch, htc⟩ := hno callNo
  unfold actGo
  simp only [hclient, hch]
  rcases htc with h | h <;> simp [h]

/-- One attempt before the ceiling: two requests (the second without
the screenshot), one log, `null`. -/
theorem actGo_noTool_one (client : LLMClient)
    (jsonParse : String → Except JsError JSVal) (resp : Nat → ChatResponse)
    (hclient : ∀ n req, client.createChat n req = .ok (resp n))
    (hno : ∀ n, noToolCallResponse (resp n))
    (action domElements : String) (steps : Option String)
    (modelName : AvailableModel) (screenshot : Option Buffer) (callNo : Nat) :
    actGo client jsonParse action domElements steps modelName screenshot 1 callNo =
      (.ok none,
       [.request (actRequest action steps domElements modelName screenshot),
        .request (actRequest action steps domElements modelName none),
        .log (some "Act") "No tool calls found in response"]) := by
  obtain ⟨c, rest, hch, htc⟩ := hno callNo
  unfold actGo
  simp only [hclient, hch]
  rcases htc with h | h <;>
    simp [h, actGo_noTool_two client jsonParse resp hclient hno]

/-- Fresh call (retries = 0): three requests (retries without the
screenshot), one log, `null`. -/
theorem actGo_noTool_zero (client : LLMClient)
    (jsonParse : String → Except JsError JSVal) (resp : Nat → ChatResponse)
    (hclient : ∀ n req, client.createChat n req = .ok (resp n))
    (hno : ∀ n, noToolCallResponse (resp n))
    (action domElements : String) (steps : Option String)
    (modelName : AvailableModel) (screenshot : Option Buffer) (callNo : Nat) :
    actGo client jsonParse action domElements steps modelName screenshot 0 callNo =
      (.ok none,
       [.request (actRequest action steps domElements modelName screenshot),
        .request (actRequest action steps domElements modelName none),
        .request (actRequest action steps domElements modelName none),
        .log (some "Act") "No tool calls found in response"]) := by
  obtain ⟨c, rest, hch, htc⟩ := hno callNo
  unfold actGo
  simp only [hclient, hch]
  rcases htc with h | h <;>
    simp [h, actGo_noTool_one client jsonParse resp hclient hno]

/-- A chat response whose single choice carries the given
`tool_calls` field (shared by concrete witnesses below). -/
def chatResponseWith (tcs : Option (List ToolCall)) : ChatResponse :=
  { choices := [{ message := { content := .null, tool_calls := tcs } }] }

/-- A completion client whose structured side always answers `v` and
whose chat side always answers `r` (shared by concrete witnesses
below). -/
def constClient (v : Except JsError JSVal) (r : Except JsError ChatResponse) : LLMClient :=
  { createStructured := fun _ _ => v
    createChat := fun _ _ => r }

/-! ## Claim theorems -/

/-- C3: for every completion-client response that is not object-shaped
(JS-falsy or of a `typeof` other than `"object"`) or that lacks the
`completed` field, `verifyActCompletion` logs a diagnostic and returns
`false`; it never raises on a malformed response (the result is always
`.ok`), and when the `completed` field is present it returns that
field's value. -/
theorem verifyActCompletion_malformed_policy
    (client : LLMClient) (goal steps : String) (modelName : AvailableModel)
    (screenshot : Option Buffer) (domElements : Option String) (response : JSVal)
    (hresp : client.createStructured 0
      (verifyRequest goal steps modelName screenshot domElements) = .ok response) :
    (∃ v, (verifyActCompletion client goal steps modelName screenshot domElements).1
        = .ok v) ∧
    ((response.isFalsy || response.typeof != "object") = true →
      (verifyActCompletion client goal steps modelName screenshot domElements).1
          = .ok (.bool false) ∧
      (some "VerifyAct", "Unexpected response format: " ++ response.stringify) ∈
        logsOf (verifyActCompletion client goal steps modelName screenshot domElements).2) ∧
    ((response.isFalsy || response.typeof != "object") = false →
      (response.get "completed").isUndefined = true →
      (verifyActCompletion client goal steps modelName screenshot domElements).1
          = .ok (.bool false) ∧
      (some "VerifyAct", "Missing \x27completed\x27 field in response") ∈
        logsOf (verifyActCompletion client goal steps modelName screenshot domElements).2) ∧
    ((response.isFalsy || response.typeof != "object") = false →
      (response.get "completed").isUndefined = false →
      (verifyActCompletion client goal steps modelName screenshot domElements).1
          = .ok (response.get "completed")) := by
  refine ⟨?_, ?_, ?_, ?_⟩ <;>
    simp only [verifyActCompletion, hresp]
  · split_ifs <;> exact ⟨_, rfl⟩
  · intro h
    simp [h, logsOf]
  · intro h1 h2
    simp [h1, h2, logsOf]
  · intro h1 h2
    simp [h1, h2]

/-- Witness for C3 at a malformed concrete response (`"oops"`, a
string, hence not object-shaped): the verifier returns `false`. -/
theorem verifyActCompletion_malformed_policy_witness :
    (verifyActCompletion
      { createStructured := fun _ _ => .ok (.str "oops")
        createChat := fun _ _ => .error (.jsError "unused") }
      "goal" "steps" "model" none none).1 = .ok (.bool false) :=
  ((verifyActCompletion_malformed_policy
      { createStructured := fun _ _ => .ok (.str "oops")
        createChat := fun _ _ => .error (.jsError "unused") }
      "goal" "steps" "model" none none (.str "oops") rfl).2.1 rfl).1

/-- C1: when the completion client returns a response with no tool
invocations on every attempt, `act` (launched with the default
`retries = 0`) issues exactly 3 completion requests — the initial
attempt plus 2 sequential retries — logs the diagnostic at the ceiling,
and returns `null`. -/
theorem act_exhausts_retries (client : LLMClient)
    (jsonParse : String → Except JsError JSVal) (resp : Nat → ChatResponse)
    (hclient : ∀ n req, client.createChat n req = .ok (resp n))
    (hno : ∀ n, noToolCallResponse (resp n))
    (action domElements : String) (steps : Option String)
    (modelName : AvailableModel) (screenshot : Option Buffer) :
    act client jsonParse action domElements steps modelName screenshot =
      (.ok none,
       [.request (actRequest action steps domElements modelName screenshot),
        .request (actRequest action steps domElements modelName none),
        .request (actRequest action steps domElements modelName none),
        .log (some "Act") "No tool calls found in response"]) ∧
    (requestsOf
      (act client jsonParse action domElements steps modelName screenshot).2).length
        = 3 := by
  have h := actGo_noTool_zero client jsonParse resp hclient hno action domElements
    steps modelName screenshot 0
  refine ⟨h, ?_⟩
  show (requestsOf
    (actGo client jsonParse action domElements steps modelName screenshot 0 0).2).length = 3
  rw [h]
  rfl

/-- Witness for C1: a client that always answers with one choice and no
tool invocations drives `act` to `null` after 3 requests. -/
theorem act_exhausts_retries_witness :
    (act (constClient (.error (.jsError "unused")) (.ok (chatResponseWith none)))
      (fun _ => .error (.parseError "unused")) "click the submit button" "dom"
      none "gpt-4o" none).1 = .ok none ∧
    (requestsOf
      (act (constClient (.error (.jsError "unused")) (.ok (chatResponseWith none)))
        (fun _ => .error (.parseError "unused")) "click the submit button" "dom"
        none "gpt-4o" none).2).length = 3 := by
  have h := act_exhausts_retries
    (constClient (.error (.jsError "unused")) (.ok (chatResponseWith none)))
    (fun _ => .error (.parseError "unused")) (fun _ => chatResponseWith none)
    (fun _ _ => rfl) (fun _ => ⟨_, _, rfl, Or.inl rfl⟩)
    "click the submit button" "dom" none "gpt-4o" none
  exact ⟨by rw [h.1], h.2⟩

/-- C5: when the first response carries a tool invocation named
`skipSection`, `act` returns `null` immediately after exactly one
completion request, issuing no retries. -/
theorem act_skip_tool_returns_null (client : LLMClient)
    (jsonParse : String → Except JsError JSVal)
    (action domElements : String) (steps : Option String)
    (modelName : AvailableModel) (screenshot : Option Buffer)
    (r : ChatResponse) (c : Choice) (cs : List Choice)
    (tc : ToolCall) (tcs : List ToolCall)
    (hresp : client.createChat 0
      (actRequest action steps domElements modelName screenshot) = .ok r)
    (hch : r.choices = c :: cs)
    (htc : c.message.tool_calls = some (tc :: tcs))
    (hname : tc.function.name = "skipSection") :
    act client jsonParse action domElements steps modelName screenshot =
      (.ok none, [.request (actRequest action steps domElements modelName screenshot)]) := by
  unfold act actGo
  simp [hresp, hch, htc, hname]

/-- Witness for C5: a first response selecting the skip tool yields
`null` with a single-request trace. -/
theorem act_skip_tool_returns_null_witness :
    act (constClient (.error (.jsError "unused"))
        (.ok (chatResponseWith (some [⟨⟨"skipSection", "\x7b\x7d"⟩⟩]))))
      (fun _ => .error (.parseError "unused")) "click" "dom" none "gpt-4o" none =
      (.ok none, [.request (actRequest "click" none "dom" "gpt-4o" none)]) :=
  act_skip_tool_returns_null
    (constClient (.error (.jsError "unused"))
      (.ok (chatResponseWith (some [⟨⟨"skipSection", "\x7b\x7d"⟩⟩]))))
    (fun _ => .error (.parseError "unused")) "click" "dom" none "gpt-4o" none
    (chatResponseWith (some [⟨⟨"skipSection", "\x7b\x7d"⟩⟩])) _ _ _ _
    rfl rfl rfl rfl

/-- C6: when the first response carries a non-skip tool invocation whose
argument payload fails to parse, the `JSON.parse` failure is not caught
inside `act` and propagates to the caller unchanged — no retry, no
`null` downgrade. -/
theorem act_parse_failure_propagates (client : LLMClient)
    (jsonParse : String → Except JsError JSVal)
    (action domElements : String) (steps : Option String)
    (modelName : AvailableModel) (screenshot : Option Buffer)
    (r : ChatResponse) (c : Choice) (cs : List Choice)
    (tc : ToolCall) (tcs : List ToolCall) (e : JsError)
    (hresp : client.createChat 0
      (actRequest action steps domElements modelName screenshot) = .ok r)
    (hch : r.choices = c :: cs)
    (htc : c.message.tool_calls = some (tc :: tcs))
    (hname : tc.function.name ≠ "skipSection")
    (hparse : jsonParse tc.function.arguments = .error e) :
    act client jsonParse action domElements steps modelName screenshot =
      (.error e, [.request (actRequest action steps domElements modelName screenshot)]) := by
  unfold act actGo
  simp [hresp, hch, htc, hname, hparse]

/-- Witness for C6: a malformed payload for a `clickElement` invocation
surfaces the parse error as `act`'s own failure after one request. -/
theorem act_parse_failure_propagates_witness :
    act (constClient (.error (.jsError "unused"))
        (.ok (chatResponseWith (some [⟨⟨"clickElement", "not json"⟩⟩]))))
      (fun _ => .error (.parseError "Unexpected token"))
      "click" "dom" none "gpt-4o" none =
      (.error (.parseError "Unexpected token"),
       [.request (actRequest "click" none "dom" "gpt-4o" none)]) :=
  act_parse_failure_propagates
    (constClient (.error (.jsError "unused"))
      (.ok (chatResponseWith (some [⟨⟨"clickElement", "not json"⟩⟩]))))
    (fun _ => .error (.parseError "Unexpected token")) "click" "dom" none "gpt-4o" none
    (chatResponseWith (some [⟨⟨"clickElement", "not json"⟩⟩])) _ _ _ _
    (.parseError "Unexpected token") rfl rfl rfl (by decide) rfl

/-- C9: on an `act` call carrying a screenshot whose responses contain
no tool invocations, the initial request attaches the image and every
retry request is issued without one, while still forwarding the action,
step history, DOM elements and model name. -/
theorem act_retry_requests_omit_screenshot (client : LLMClient)
    (jsonParse : String → Except JsError JSVal) (resp : Nat → ChatResponse)
    (hclient : ∀ n req, client.createChat n req = .ok (resp n))
    (hno : ∀ n, noToolCallResponse (resp n))
    (action domElements : String) (steps : Option String)
    (modelName : AvailableModel) (buf : Buffer) :
    requestsOf (act client jsonParse action domElements steps modelName (some buf)).2 =
      [actRequest action steps domElements modelName (some buf),
       actRequest action steps domElements modelName none,
       actRequest action steps domElements modelName none] ∧
    ∀ req ∈ (requestsOf
        (act client jsonParse action domElements steps modelName (some buf)).2).tail,
      req.image = none ∧
      req.messages = [ChatMessage.buildActSystemPrompt,
                      ChatMessage.buildActUserPrompt action steps domElements] ∧
      req.model = modelName := by
  have h := actGo_noTool_zero client jsonParse resp hclient hno action domElements
    steps modelName (some buf) 0
  have hreq : requestsOf
      (act client jsonParse action domElements steps modelName (some buf)).2 =
      [actRequest action steps domElements modelName (some buf),
       actRequest action steps domElements modelName none,
       actRequest action steps domElements modelName none] := by
    show requestsOf
      (actGo client jsonParse action domElements steps modelName (some buf) 0 0).2 = _
    rw [h]
    rfl
  refine ⟨hreq, ?_⟩
  rw [hreq]
  intro req hreq'
  simp only [List.tail_cons, List.mem_cons, List.mem_singleton] at hreq'
  rcases hreq' with h' | h' | h' <;> first
    | (subst h'; exact ⟨rfl, rfl, rfl⟩)
    | exact absurd h' (by simp)

/-- Witness for C9: with a concrete screenshot buffer the retry
requests carry no image. -/
theorem act_retry_requests_omit_screenshot_witness :
    requestsOf
      (act (constClient (.error (.jsError "unused")) (.ok (chatResponseWith none)))
        (fun _ => .error (.parseError "unused")) "click" "dom" none "gpt-4o"
        (some [0, 1, 2])).2 =
      [actRequest "click" none "dom" "gpt-4o" (some [0, 1, 2]),
       actRequest "click" none "dom" "gpt-4o" none,
       actRequest "click" none "dom" "gpt-4o" none] :=
  (act_retry_requests_omit_screenshot
    (constClient (.error (.jsError "unused")) (.ok (chatResponseWith none)))
    (fun _ => .error (.parseError "unused")) (fun _ => chatResponseWith none)
    (fun _ _ => rfl) (fun _ => ⟨_, _, rfl, Or.inl rfl⟩)
    "click" "dom" none "gpt-4o" [0, 1, 2]).1

/-- C10: on a first response carrying two or more tool invocations,
`act` decides solely on the first invocation — `null` when it is the
skip tool, otherwise the parse of its arguments — after exactly one
completion request; the remaining invocations do not influence the
result. -/
theorem act_first_invocation_decides (client : LLMClient)
    (jsonParse : String → Except JsError JSVal)
    (action domElements : String) (steps : Option String)
    (modelName : AvailableModel) (screenshot : Option Buffer)
    (r : ChatResponse) (c : Choice) (cs : List Choice)
    (tc1 tc2 : ToolCall) (tcs : List ToolCall)
    (hresp : client.createChat 0
      (actRequest action steps domElements modelName screenshot) = .ok r)
    (hch : r.choices = c :: cs)
    (htc : c.message.tool_calls = some (tc1 :: tc2 :: tcs)) :
    act client jsonParse action domElements steps modelName screenshot =
      ((if tc1.function.name = "skipSection" then Except.ok none
        else (jsonParse tc1.function.arguments).map some),
       [.request (actRequest action steps domElements modelName screenshot)]) := by
  unfold act actGo
  by_cases h : tc1.function.name = "skipSection"
  · simp [hresp, hch, htc, h]
  · simp only [hresp, hch, htc, h, if_false]
    cases hp : jsonParse tc1.function.arguments <;>
      simp [hresp, hch, htc, h, hp, Except.map]

/-- Witness for C10: with two invocations (`clickElement` first,
`skipSection` second) the result is the parse of the first invocation's
arguments; the trailing skip invocation is ignored. -/
theorem act_first_invocation_decides_witness :
    (act (constClient (.error (.jsError "unused"))
        (.ok (chatResponseWith
          (some [⟨⟨"clickElement", "payload"⟩⟩, ⟨⟨"skipSection", "\x7b\x7d"⟩⟩]))))
      (fun _ => .ok (.num 7)) "click" "dom" none "gpt-4o" none).1
      = .ok (some (.num 7)) := by
  have h := act_first_invocation_decides
    (constClient (.error (.jsError "unused"))
      (.ok (chatResponseWith
        (some [⟨⟨"clickElement", "payload"⟩⟩, ⟨⟨"skipSection", "\x7b\x7d"⟩⟩]))))
    (fun _ => .ok (.num 7)) "click" "dom" none "gpt-4o" none
    (chatResponseWith
      (some [⟨⟨"clickElement", "payload"⟩⟩, ⟨⟨"skipSection", "\x7b\x7d"⟩⟩]))
    _ _ _ _ _ rfl rfl rfl
  rw [h]
  simp [Except.map]

/-- C2: for every caller schema and input, `extract` issues the three
sequential completion calls (extract, refine, metadata); the refine
request carries stage 1's raw output in its user prompt; and the result
is stage 2's schema-conforming object with a `metadata` field holding
stage 3's `{progress : string, completed : boolean}` response. -/
theorem extract_pipeline_shape (client : LLMClient) (instruction progress : String)
    (previouslyExtractedContent : JSVal) (domElements : String)
    (schema : JSVal → Bool) (modelName : AvailableModel)
    (chunksSeen chunksTotal : Nat) (r1 r3 : JSVal) (fields2 : List (String × JSVal))
    (h1 : client.createStructured 0
      (extractRequest instruction domElements schema modelName) = .ok r1)
    (h2 : client.createStructured 1
      (refineRequest instruction previouslyExtractedContent r1 schema modelName)
        = .ok (.obj fields2))
    (h3 : client.createStructured 2
      (metadataRequest instruction (.obj fields2) chunksSeen chunksTotal modelName)
        = .ok r3)
    (hs2 : schema (.obj fields2) = true)
    (hs3 : metadataSchema r3 = true) :
    extract client instruction progress previouslyExtractedContent domElements
        schema modelName chunksSeen chunksTotal =
      (.ok (.obj (setAssocField fields2 "metadata" r3)),
       [.request (extractRequest instruction domElements schema modelName),
        .request (refineRequest instruction previouslyExtractedContent r1 schema modelName),
        .request (metadataRequest instruction (.obj fields2) chunksSeen chunksTotal
          modelName)]) ∧
    ChatMessage.buildRefineUserPrompt instruction previouslyExtractedContent r1 ∈
      (refineRequest instruction previouslyExtractedContent r1 schema modelName).messages ∧
    (JSVal.obj (setAssocField fields2 "metadata" r3)).get "metadata" = r3 ∧
    (∃ p c, r3 = JSVal.obj [("progress", JSVal.str p), ("completed", JSVal.bool c)]) ∧
    schema (.obj fields2) = true := by
  refine ⟨?_, ?_, ?_, metadataSchema_shape r3 hs3, hs2⟩
  · unfold extract
    simp [h1, h2, h3, JSVal.setProp]
  · simp [refineRequest]
  · exact lookupField_setAssocField fields2 "metadata" r3

/-- The caller schema of the concrete C2 witness:
`z.object({items: z.array(z.string())})` seen as a conformance
predicate. -/
def itemsSchema : JSVal → Bool := fun j =>
  match j with
  | .obj [("items", .arr xs)] =>
      xs.all fun x => match x with | .str _ => true | _ => false
  | _ => false

/-- The concrete client of the C2 witness: stage 1 and stage 2 answer
`{items: ["A"]}`, stage 3 answers
`{progress: "found 1 item", completed: false}`. -/
def extractClient : LLMClient :=
  { createStructured := fun n _ =>
      if n = 0 then .ok (.obj [("items", .arr [.str "A"])])
      else if n = 1 then .ok (.obj [("items", .arr [.str "A"])])
      else .ok (.obj [("progress", .str "found 1 item"), ("completed", .bool false)])
    createChat := fun _ _ => .error (.jsError "unused") }

/-- Witness for C2: the 2-chunk list-extraction scenario yields
`{items: ["A"], metadata: {progress: "found 1 item", completed:
false}}`. -/
theorem extract_pipeline_shape_witness :
    (extract extractClient "list the items" "" (.obj [("items", .arr [])]) "dom"
      itemsSchema "gpt-4o" 1 2).1 =
      .ok (.obj [("items", .arr [.str "A"]),
                 ("metadata", .obj [("progress", .str "found 1 item"),
                                    ("completed", .bool false)])]) := by
  have h := extract_pipeline_shape extractClient "list the items" ""
    (.obj [("items", .arr [])]) "dom" itemsSchema "gpt-4o" 1 2
    (.obj [("items", .arr [.str "A"])])
    (.obj [("progress", .str "found 1 item"), ("completed", .bool false)])
    [("items", .arr [.str "A"])] rfl rfl rfl rfl rfl
  rw [h.1]
  rfl

/-- C7: a failure of any of the three completion calls propagates
unchanged out of `extract`: there is no retry (each request is issued
once, and nothing follows the failed call) and no partial result is
synthesized from the stages that succeeded. -/
theorem extract_failure_propagates (client : LLMClient) (instruction progress : String)
    (previouslyExtractedContent : JSVal) (domElements : String)
    (schema : JSVal → Bool) (modelName : AvailableModel)
    (chunksSeen chunksTotal : Nat) (e : JsError) :
    (client.createStructured 0
        (extractRequest instruction domElements schema modelName) = .error e →
      extract client instruction progress previouslyExtractedContent domElements
          schema modelName chunksSeen chunksTotal =
        (.error e, [.request (extractRequest instruction domElements schema modelName)])) ∧
    (∀ r1, client.createStructured 0
        (extractRequest instruction domElements schema modelName) = .ok r1 →
      client.createStructured 1
        (refineRequest instruction previouslyExtractedContent r1 schema modelName)
          = .error e →
      extract client instruction progress previouslyExtractedContent domElements
          schema modelName chunksSeen chunksTotal =
        (.error e,
         [.request (extractRequest instruction domElements schema modelName),
          .request (refineRequest instruction previouslyExtractedContent r1 schema
            modelName)])) ∧
    (∀ r1 r2, client.createStructured 0
        (extractRequest instruction domElements schema modelName) = .ok r1 →
      client.createStructured 1
        (refineRequest instruction previouslyExtractedContent r1 schema modelName)
          = .ok r2 →
      client.createStructured 2
        (metadataRequest instruction r2 chunksSeen chunksTotal modelName) = .error e →
      extract client instruction progress previouslyExtractedContent domElements
          schema modelName chunksSeen chunksTotal =
        (.error e,
         [.request (extractRequest instruction domElements schema modelName),
          .request (refineRequest instruction previouslyExtractedContent r1 schema
            modelName),
          .request (metadataRequest instruction r2 chunksSeen chunksTotal modelName)])) := by
  refine ⟨?_, ?_, ?_⟩
  · intro h
    unfold extract
    simp [h]
  · intro r1 h1 h2
    unfold extract
    simp [h1, h2]
  · intro r1 r2 h1 h2 h3
    unfold extract
    simp [h1, h2, h3]

/-- Witness for C7: a client whose structured side rejects makes
`extract` fail with that same error after the first request. -/
theorem extract_failure_propagates_witness :
    extract (constClient (.error (.jsError "boom")) (.error (.jsError "unused")))
      "instr" "" .null "dom" (fun _ => true) "gpt-4o" 0 1 =
      (.error (.jsError "boom"),
       [.request (extractRequest "instr" "dom" (fun _ => true) "gpt-4o")]) :=
  (extract_failure_propagates
    (constClient (.error (.jsError "boom")) (.error (.jsError "unused")))
    "instr" "" .null "dom" (fun _ => true) "gpt-4o" 0 1 (.jsError "boom")).1 rfl

/-- C4: `observe` raises (`no response when finding a selector`) when
the completion client resolves with `null` or `undefined`, and returns a
response holding an empty `elements` array unchanged — an empty array is
a valid result, not a failure. -/
theorem observe_null_raises_empty_ok (client : LLMClient)
    (instruction domElements : String) (modelName : AvailableModel)
    (image : Option Buffer) :
    (client.createStructured 0
        (observeRequest instruction domElements modelName image) = .ok .null →
      (observe client instruction domElements modelName image).1 =
        .error (.jsError "no response when finding a selector")) ∧
    (client.createStructured 0
        (observeRequest instruction domElements modelName image) = .ok .undefined →
      (observe client instruction domElements modelName image).1 =
        .error (.jsError "no response when finding a selector")) ∧
    (client.createStructured 0
        (observeRequest instruction domElements modelName image)
          = .ok (.obj [("elements", .arr [])]) →
      observe client instruction domElements modelName image =
        (.ok (.obj [("elements", .arr [])]),
         [.request (observeRequest instruction domElements modelName image)])) := by
  refine ⟨?_, ?_, ?_⟩ <;> intro h <;> unfold observe <;> simp [h, JSVal.isFalsy]

/-- Witness for C4: a `null` client response raises, and an
empty-`elements` response comes back unchanged. -/
theorem observe_null_raises_empty_ok_witness :
    (observe (constClient (.ok .null) (.error (.jsError "unused")))
      "find the button" "dom" "gpt-4o" none).1 =
      .error (.jsError "no response when finding a selector") ∧
    observe (constClient (.ok (.obj [("elements", .arr [])]))
        (.error (.jsError "unused"))) "find the button" "dom" "gpt-4o" none =
      (.ok (.obj [("elements", .arr [])]),
       [.request (observeRequest "find the button" "dom" "gpt-4o" none)]) :=
  ⟨(observe_null_raises_empty_ok (constClient (.ok .null) (.error (.jsError "unused")))
      "find the button" "dom" "gpt-4o" none).1 rfl,
   (observe_null_raises_empty_ok
      (constClient (.ok (.obj [("elements", .arr [])])) (.error (.jsError "unused")))
      "find the button" "dom" "gpt-4o" none).2.2 rfl⟩

/-- C8: `ask` issues exactly one completion request with no output
schema, no tools and no retry; it returns the raw content of the
response's first choice unchanged, and a client failure propagates
unchanged. -/
theorem ask_single_unconstrained (client : LLMClient) (question : String)
    (modelName : AvailableModel) :
    (askRequest question modelName).response_model = none ∧
    (askRequest question modelName).tools = none ∧
    (askRequest question modelName).image = none ∧
    (∀ e, client.createChat 0 (askRequest question modelName) = .error e →
      ask client question modelName =
        (.error e, [.request (askRequest question modelName)])) ∧
    (∀ r c cs, client.createChat 0 (askRequest question modelName) = .ok r →
      r.choices = c :: cs →
      ask client question modelName =
        (.ok c.message.content, [.request (askRequest question modelName)])) := by
  refine ⟨rfl, rfl, rfl, ?_, ?_⟩
  · intro e h
    unfold ask
    simp [h]
  · intro r c cs h hch
    unfold ask
    simp [h, hch]

/-- Witness for C8: a one-choice text response is returned unchanged
with a single-request trace. -/
theorem ask_single_unconstrained_witness :
    ask (constClient (.error (.jsError "unused"))
        (.ok { choices := [{ message := { content := .str "Paris", tool_calls := none } }] }))
      "capital of France?" "gpt-4o" =
      (.ok (.str "Paris"), [.request (askRequest "capital of France?" "gpt-4o")]) :=
  (ask_single_unconstrained
    (constClient (.error (.jsError "unused"))
      (.ok { choices := [{ message := { content := .str "Paris", tool_calls := none } }] }))
    "capital of France?" "gpt-4o").2.2.2.2 _ _ _ rfl rfl

end Stagehand
